import Mathlib

/-!
# House Color Gallery — rating core, shallow embedding

A shallow embedding of the rating synchronization and aggregation core of the
house-color-gallery application, together with proofs of its specified
properties.

The embedding follows the JavaScript sources:
* `src/js/ratings.js` — the `Ratings` module (cache, optimistic `setRating`
  with toggle semantics, `getRatings` with local-storage fallback,
  `subscribeToRatings` fan-out, snapshot bridging in `mountCard`);
* the results/swatch view module (`categorizeImage`, `applyLikesFilter`,
  score-based tier grouping in `renderSwatches`).

Modelling conventions:
* JavaScript strings stay `String`; `normalizeText` (i.e. `String(x ?? "").trim()`)
  is modelled by an executable trim over the character list, since the
  argument is always a string or nullish in the modelled call sites.
* JavaScript objects / `Map`s keyed by strings are association lists
  (`List (String × α)`); key order is irrelevant to every property proved
  here, so entry update is modelled as remove-then-append.
* `null`/`undefined` is `Option`.
* Asynchronous effects are sequentialized: each `setRating` call runs to
  completion before the next one starts (the optimistic cache update is the
  synchronous prefix of the JS function, so back-to-back calls observe each
  other's cache writes exactly as in the event loop).  Side effects
  (subscriber callbacks, the `ratingChanged` DOM event, store writes) are
  recorded as an ordered event trace.
* Remote-backend connectivity is a session flag `remoteUp`: when it is
  `false`, remote reads and writes fail (the `catch` branches run).
-/

namespace HouseGallery

/-- Model of JavaScript `String.prototype.trim`: drop leading and trailing
whitespace.  Used for `normalizeText(value) = String(value ?? "").trim()`. -/
def jsTrim (s : String) : String :=
  ⟨((s.data.dropWhile Char.isWhitespace).reverse.dropWhile Char.isWhitespace).reverse⟩

/-- `normalizeText` from `ratings.js` on an optional string:
`String(value ?? "").trim()`. -/
def normalizeText (value : Option String) : String :=
  jsTrim (value.getD "")

/-- `const VALID = new Set(["like", "unsure", "dislike"])` — membership test. -/
def VALID (v : String) : Bool :=
  v == "like" || v == "unsure" || v == "dislike"

/-- A vote map: voter name → stored rating value (`ratings.js` caches
`{ [userName]: rating }`). -/
abbrev VoteMap := List (String × String)

/-! ## Association-list primitives (JS object / `Map` operations) -/

/-- Lookup (`obj[k]` / `map.get(k)`). -/
def alGet {α : Type} (m : List (String × α)) (k : String) : Option α :=
  (m.find? (fun p => p.1 == k)).map Prod.snd

/-- Upsert (`obj[k] = v` / `map.set(k, v)`); key order is irrelevant here. -/
def alSet {α : Type} (m : List (String × α)) (k : String) (v : α) :
    List (String × α) :=
  (m.filter (fun p => !(p.1 == k))) ++ [(k, v)]

/-- Delete (`delete obj[k]` / `map.delete(k)`). -/
def alDel {α : Type} (m : List (String × α)) (k : String) :
    List (String × α) :=
  m.filter (fun p => !(p.1 == k))

theorem alGet_alSet_same {α : Type} (m : List (String × α)) (k : String) (v : α) :
    alGet (alSet m k v) k = some v := by
  unfold alGet alSet
  induction m with
  | nil => simp [List.find?]
  | cons p t ih =>
    by_cases h : p.1 == k
    · simpa [h] using ih
    · simpa [List.find?, h] using ih

theorem alGet_alSet_other {α : Type} (m : List (String × α)) (k k' : String) (v : α)
    (hne : k' ≠ k) : alGet (alSet m k v) k' = alGet m k' := by
  unfold alGet alSet
  induction m with
  | nil =>
    simp [List.find?, show (k == k') = false from by
      simpa [beq_iff_eq] using fun h => hne h.symm]
  | cons p t ih =>
    by_cases h : p.1 == k
    · have hk : p.1 = k := by simpa [beq_iff_eq] using h
      have : (p.1 == k') = false := by
        simp [beq_iff_eq, hk]
        exact fun h' => hne h'.symm
      simp only [List.filter_cons, h, Bool.not_true]
      simp [List.find?, this] at ih ⊢
      exact ih
    · by_cases h2 : p.1 == k'
      · simp [List.filter_cons, h, List.find?, h2]
      · simp only [List.filter_cons, h, Bool.not_false]
        simp [List.find?, h2] at ih ⊢
        exact ih

theorem alGet_alDel_same {α : Type} (m : List (String × α)) (k : String) :
    alGet (alDel m k) k = none := by
  unfold alGet alDel
  induction m with
  | nil => simp [List.find?]
  | cons p t ih =>
    by_cases h : p.1 == k
    · simpa [h] using ih
    · simpa [List.find?, h] using ih

theorem alGet_alDel_other {α : Type} (m : List (String × α)) (k k' : String)
    (hne : k' ≠ k) : alGet (alDel m k) k' = alGet m k' := by
  unfold alGet alDel
  induction m with
  | nil => simp
  | cons p t ih =>
    by_cases h : p.1 == k
    · have hk : p.1 = k := by simpa [beq_iff_eq] using h
      have : (p.1 == k') = false := by
        simp [beq_iff_eq, hk]
        exact fun h' => hne h'.symm
      simp only [List.filter_cons, h, Bool.not_true]
      simp [List.find?, this] at ih ⊢
      exact ih
    · by_cases h2 : p.1 == k'
      · simp [List.filter_cons, h, List.find?, h2]
      · simp only [List.filter_cons, h, Bool.not_false]
        simp [List.find?, h2] at ih ⊢
        exact ih

/-! ## Aggregation: `categorizeImage` (results view module) -/

/-- `categorizeImage(ratings)` from the results view module: classify a vote
map as `"consensus" | "controversial" | "rejected" | "unrated"`. -/
def categorizeImage (ratings : VoteMap) : String :=
  let votes := ratings.map Prod.snd
  if votes.length = 0 then "unrated" else
  let likes := (votes.filter (fun v => v == "like")).length
  let dislikes := (votes.filter (fun v => v == "dislike")).length
  if votes.length < 2 then "unrated"
  else if likes > 0 && dislikes == 0 then "consensus"
  else if dislikes > likes then "rejected"
  else if likes > 0 && dislikes > 0 then "controversial"
  else "unrated"

/-- The four classification rules exactly as the specification words them, in
the spec's order: fewer than 2 votes → unrated; ≥1 like and 0 dislikes →
consensus; dislikes strictly exceed likes → rejected; ≥1 like and ≥1
dislike → controversial; everything else → unrated. -/
def classifySpec (ratings : VoteMap) : String :=
  let votes := ratings.map Prod.snd
  let likes := (votes.filter (fun v => v == "like")).length
  let dislikes := (votes.filter (fun v => v == "dislike")).length
  if votes.length < 2 then "unrated"
  else if 1 ≤ likes ∧ dislikes = 0 then "consensus"
  else if likes < dislikes then "rejected"
  else if 1 ≤ likes ∧ 1 ≤ dislikes then "controversial"
  else "unrated"

/-- C1: `categorizeImage` is a total function on vote maps that applies
exactly the four specification rules in the specified order (the code's extra
leading zero-votes check is subsumed by the fewer-than-2 rule), and it agrees
with all six concrete examples given in the specification. -/
theorem C1_classify_total_rules :
    (∀ m : VoteMap, categorizeImage m = classifySpec m)
    ∧ categorizeImage [] = "unrated"
    ∧ categorizeImage [("a", "like")] = "unrated"
    ∧ categorizeImage [("a", "like"), ("b", "like")] = "consensus"
    ∧ categorizeImage [("a", "like"), ("b", "dislike")] = "controversial"
    ∧ categorizeImage [("a", "dislike"), ("b", "dislike")] = "rejected"
    ∧ categorizeImage [("a", "dislike"), ("b", "like"), ("c", "dislike")] = "rejected" := by
  refine ⟨fun m => ?_, by decide, by decide, by decide, by decide, by decide, by decide⟩
  unfold categorizeImage classifySpec
  simp only [beq_iff_eq, Bool.and_eq_true, decide_eq_true_eq, gt_iff_lt]
  split_ifs <;> first | rfl | omega

/-! ## The `Ratings` module state (`ratings.js`) -/

/-- The raw documents of a remote `images/{id}/ratings` collection:
document id (voter name) → the stored `value` field (`none` when the
document has no `value` field). -/
abbrev RawDocs := List (String × Option String)

/-- Observable side effects of the `Ratings` module, in program order:
subscriber callbacks (`notify`), the `ratingChanged` DOM event, the
`users/{name}` document write inside `ensureUserDocument`, the remote
ratings-cell write/delete, and the local-storage `writeOfflineStore`.
The `ok` flag on remote operations records whether the attempt succeeded
(`false` means the `catch` branch ran). -/
inductive REvent where
  | notify (imageId : String) (cb : Nat) (ratings : VoteMap)
  | ratingChanged (imageId : String)
  | userDocWrite (user : String) (ok : Bool)
  | remoteSet (imageId user value : String) (ok : Bool)
  | remoteDelete (imageId user : String) (ok : Bool)
  | localWrite
  deriving Repr, DecidableEq

/-- Module-level state of `ratings.js`: the in-memory `cache`
(imageId → VoteMap), the `watchers` registry (imageId → set of callback
handles, modelled as `Nat` ids), the parsed local-storage record under the
fixed key `"houseRatings"`, the remote store contents, whether a database
handle was injected (`db !== null`), session connectivity of the remote
backend, and the identity sources read by `resolveUser` (`currentUser`,
`App.getUser()`, `localStorage.houseColorUser`; `none`/`""` are falsy). -/
structure RState where
  cache : List (String × VoteMap)
  watchers : List (String × List Nat)
  localStore : List (String × VoteMap)
  remote : List (String × RawDocs)
  hasDb : Bool
  remoteUp : Bool
  currentUser : Option String
  appUser : Option String
  storedUser : Option String
  deriving Repr, DecidableEq

/-- JavaScript `a || b` for an optional string `a` (empty string is falsy). -/
def firstTruthy (a : Option String) (b : String) : String :=
  match a with
  | some s => if s == "" then b else s
  | none => b

/-- `resolveUser()`: `currentUser || App.getUser() || localStorage.getItem("houseColorUser") || "Guest"`. -/
def resolveUser (st : RState) : String :=
  firstTruthy st.currentUser (firstTruthy st.appUser (firstTruthy st.storedUser "Guest"))

/-- `getCachedRatings(imageId)`: `cache.get(imageId) || {}`. -/
def getCachedRatings (st : RState) (imageId : String) : VoteMap :=
  (alGet st.cache imageId).getD []

/-- The events produced by `notify(imageId)`: nothing when no watcher set
exists, otherwise one callback invocation per registered watcher, each
receiving a copy of the current cached VoteMap. -/
def notifyEvents (st : RState) (imageId : String) : List REvent :=
  match alGet st.watchers imageId with
  | none => []
  | some s => s.map (fun cb => REvent.notify imageId cb (getCachedRatings st imageId))

/-- `setCachedRatings(imageId, ratings)`: store the map in the cache, then
`notify(imageId)`. -/
def setCachedRatings (st : RState) (imageId : String) (ratings : VoteMap) :
    RState × List REvent :=
  let st' := { st with cache := alSet st.cache imageId ratings }
  (st', notifyEvents st' imageId)

/-- The offline-store delta of `setRating` (the identical code block appears
both in the `!db` branch and in the `catch` fallback):
toggle-off → `if (store[id]) delete store[id][user]`,
otherwise → `store[id] = { ...(store[id] || {}), [user]: value }`. -/
def offlineStoreApply (store : List (String × VoteMap)) (id user value : String)
    (isToggleOff : Bool) : List (String × VoteMap) :=
  if isToggleOff then
    match alGet store id with
    | none => store
    | some m => alSet store id (alDel m user)
  else
    alSet store id (alSet ((alGet store id).getD []) user value)

/-- The remote-store delta of `setRating`: delete or merge-set the single
`images/{id}/ratings/{user}` document. -/
def remoteApply (remote : List (String × RawDocs)) (id user value : String)
    (isToggleOff : Bool) : List (String × RawDocs) :=
  let docs := (alGet remote id).getD []
  if isToggleOff then alSet remote id (alDel docs user)
  else alSet remote id (alSet docs user (some value))

/-- `setRating(imageId, rating)` from `ratings.js`, with its side effects in
program order.  The asynchronous persistence tail is sequentialized; when the
remote backend is down (`remoteUp = false`) the `ensureUserDocument` write
fails (caught internally) and the ratings write fails, triggering the
`catch` fallback to the offline store. -/
def setRating (st : RState) (imageId rating : String) : RState × List REvent :=
  let id := jsTrim imageId
  let value := jsTrim rating
  if id == "" then (st, [])
  else if !(VALID value) then (st, [])
  else
    let user := resolveUser st
    if user == "" then (st, [])
    else
      let currentRatings := getCachedRatings st id
      let isToggleOff := alGet currentRatings user == some value
      let next := if isToggleOff then alDel currentRatings user
                  else alSet currentRatings user value
      let st1 := (setCachedRatings st id next).1
      let evs2 := (setCachedRatings st id next).2 ++ [REvent.ratingChanged id]
      if !st.hasDb then
        let store' := offlineStoreApply st1.localStore id user value isToggleOff
        ({ st1 with localStore := store' }, evs2 ++ [REvent.localWrite])
      else if st.remoteUp then
        let remote' := remoteApply st1.remote id user value isToggleOff
        let pev := if isToggleOff then REvent.remoteDelete id user true
                   else REvent.remoteSet id user value true
        ({ st1 with remote := remote' },
          evs2 ++ [REvent.userDocWrite user true, pev])
      else
        let store' := offlineStoreApply st1.localStore id user value isToggleOff
        let pev := if isToggleOff then REvent.remoteDelete id user false
                   else REvent.remoteSet id user value false
        ({ st1 with localStore := store' },
          evs2 ++ [REvent.userDocWrite user false, pev, REvent.localWrite])

/-- The snapshot-to-VoteMap loop shared verbatim by `getRatings` and the
`mountCard` live listener: `value = normalizeText(doc.data()?.value);
if (VALID.has(value)) ratings[doc.id] = value`. -/
def snapshotToRatings (docs : RawDocs) : VoteMap :=
  docs.foldl
    (fun ratings d =>
      let value := normalizeText d.2
      if VALID value then alSet ratings d.1 value else ratings)
    []

/-- `getRatings(imageId)` from `ratings.js`: empty for a blank id; the
offline store when no database handle exists; the filtered remote snapshot
when the remote read succeeds; the offline store again in the `catch`
fallback when the remote read fails. -/
def getRatings (st : RState) (imageId : String) : VoteMap :=
  let id := jsTrim imageId
  if id == "" then []
  else if !st.hasDb then (alGet st.localStore id).getD []
  else if st.remoteUp then snapshotToRatings ((alGet st.remote id).getD [])
  else (alGet st.localStore id).getD []

/-- The synchronous part of `subscribeToRatings(imageId, callback)`: register
the callback in the watcher set for the image and invoke it once with the
current cached map.  (The one-shot asynchronous hydration fetch performed
when the cache has no entry is not needed by any property proved here.) -/
def subscribeToRatings (st : RState) (imageId : String) (cb : Nat) :
    RState × List REvent :=
  let id := jsTrim imageId
  if id == "" then (st, [])
  else
    let set0 := (alGet st.watchers id).getD []
    let set1 := if cb ∈ set0 then set0 else set0 ++ [cb]
    let st1 := { st with watchers := alSet st.watchers id set1 }
    (st1, [REvent.notify id cb (getCachedRatings st1 id)])

/-- The closure returned by `subscribeToRatings` (`id` is already trimmed
when the closure is built): remove the callback from the image's watcher
set if one exists, and drop the set entirely once it is empty. -/
def unsubscribeFromRatings (st : RState) (id : String) (cb : Nat) : RState :=
  match alGet st.watchers id with
  | none => st
  | some s =>
    let s' := s.filter (fun x => !(x == cb))
    if s'.length == 0 then { st with watchers := alDel st.watchers id }
    else { st with watchers := alSet st.watchers id s' }

/-- The `onSnapshot` bridge installed by `mountCard`: rebuild the VoteMap
from the raw snapshot (dropping invalid values) and push it into the cache,
fanning out to subscribers. -/
def mountCardOnSnapshot (st : RState) (imageId : String) (docs : RawDocs) :
    RState × List REvent :=
  setCachedRatings st (jsTrim imageId) (snapshotToRatings docs)

/-! ## Basic facts about the state machine -/

theorem firstTruthy_ne_empty (a : Option String) (b : String)
    (hb : (b == "") = false) : (firstTruthy a b == "") = false := by
  unfold firstTruthy
  cases a with
  | none => exact hb
  | some s =>
    by_cases h : (s == "") = true
    · simp only [h, if_true]
      exact hb
    · simp only [h, if_false]
      simpa using h

/-- `resolveUser` always yields a truthy identity (ultimately `"Guest"`),
so the `if (!user) return` guard in `setRating` never fires. -/
theorem resolveUser_ne_empty (st : RState) : (resolveUser st == "") = false :=
  firstTruthy_ne_empty _ _ (firstTruthy_ne_empty _ _
    (firstTruthy_ne_empty _ _ (by decide)))

/-- `setRating` never touches the watcher registry, the backend
configuration, or the identity sources. -/
theorem setRating_preserves_frame (st : RState) (imageId rating : String) :
    (setRating st imageId rating).1.watchers = st.watchers
    ∧ (setRating st imageId rating).1.hasDb = st.hasDb
    ∧ (setRating st imageId rating).1.remoteUp = st.remoteUp
    ∧ (setRating st imageId rating).1.currentUser = st.currentUser
    ∧ (setRating st imageId rating).1.appUser = st.appUser
    ∧ (setRating st imageId rating).1.storedUser = st.storedUser := by
  unfold setRating setCachedRatings
  by_cases h1 : (jsTrim imageId == "") = true
  · simp [h1]
  · by_cases h2 : VALID (jsTrim rating) = true
    · by_cases h3 : st.hasDb = true
      · by_cases h4 : st.remoteUp = true
        · simp [h1, h2, h3, h4, resolveUser_ne_empty]
        · simp [h1, h2, h3, h4, resolveUser_ne_empty]
      · simp [h1, h2, h3, resolveUser_ne_empty]
    · simp [h1, h2, resolveUser_ne_empty]

/-- The voter identity resolved by a later call is unchanged by `setRating`. -/
theorem resolveUser_setRating (st : RState) (imageId rating : String) :
    resolveUser (setRating st imageId rating).1 = resolveUser st := by
  unfold resolveUser
  rw [(setRating_preserves_frame st imageId rating).2.2.2.1,
    (setRating_preserves_frame st imageId rating).2.2.2.2.1,
    (setRating_preserves_frame st imageId rating).2.2.2.2.2]

/-- On a valid call, the cached VoteMap of the target image becomes the
toggled map: the voter's cell is deleted when it already held the requested
value, and set to the requested value otherwise. -/
theorem setRating_cache_valid (st : RState) (imageId rating : String)
    (hid : (jsTrim imageId == "") = false) (hv : VALID (jsTrim rating) = true) :
    getCachedRatings (setRating st imageId rating).1 (jsTrim imageId)
      = (if alGet (getCachedRatings st (jsTrim imageId)) (resolveUser st)
            == some (jsTrim rating)
         then alDel (getCachedRatings st (jsTrim imageId)) (resolveUser st)
         else alSet (getCachedRatings st (jsTrim imageId)) (resolveUser st)
                (jsTrim rating)) := by
  have hu := resolveUser_ne_empty st
  unfold setRating setCachedRatings
  simp only [hid, hv, hu, Bool.not_true, Bool.false_eq_true, if_false]
  split_ifs <;>
    simp_all [getCachedRatings, alGet_alSet_same]

/-- A `setRating` call with an invalid trimmed vote value returns the state
unchanged with no events (shared helper). -/
theorem setRating_invalid_noop (st : RState) (imageId rating : String)
    (h : VALID (jsTrim rating) = false) :
    setRating st imageId rating = (st, []) := by
  unfold setRating
  by_cases hid : (jsTrim imageId == "") = true
  · simp [hid]
  · simp [hid, h]

/-- C5: a `setRating` call whose vote value is invalid after trimming is a
complete no-op: the returned state equals the input state (cache, local
store, remote store, watcher registry all unchanged) and no event — neither
a subscriber callback nor a `ratingChanged` dispatch nor a store write —
is produced. -/
theorem C5_invalid_vote_noop (st : RState) (imageId rating : String)
    (h : VALID (jsTrim rating) = false) :
    setRating st imageId rating = (st, []) :=
  setRating_invalid_noop st imageId rating h

/-- Witness for C5 at a concrete input: the vote `"love"` is invalid and the
call leaves a concrete state untouched with an empty event trace. -/
theorem C5_invalid_vote_noop_witness :
    VALID (jsTrim "love") = false
    ∧ setRating ⟨[], [], [], [], true, true, some "A", none, none⟩ "img" "love"
        = (⟨[], [], [], [], true, true, some "A", none, none⟩, []) :=
  ⟨by decide,
    C5_invalid_vote_noop ⟨[], [], [], [], true, true, some "A", none, none⟩
      "img" "love" (by decide)⟩

/-- C9: voter isolation — a `setRating` call only ever touches the resolved
voter's own cell: every other voter's entry (or absence of one) in the target
image's cached VoteMap is exactly preserved. -/
theorem C9_voter_isolation (st : RState) (imageId rating w : String)
    (hw : w ≠ resolveUser st) :
    alGet (getCachedRatings (setRating st imageId rating).1 (jsTrim imageId)) w
      = alGet (getCachedRatings st (jsTrim imageId)) w := by
  by_cases hid : (jsTrim imageId == "") = true
  · unfold setRating
    simp [hid]
  · by_cases hv : VALID (jsTrim rating) = true
    · rw [setRating_cache_valid st imageId rating (by simpa using hid) hv]
      by_cases ht : alGet (getCachedRatings st (jsTrim imageId)) (resolveUser st)
          == some (jsTrim rating)
      · simp only [ht, if_true]
        exact alGet_alDel_other _ _ _ hw
      · simp only [ht, if_false]
        exact alGet_alSet_other _ _ _ _ hw
    · rw [setRating_invalid_noop st imageId rating (by simpa using hv)]

/-- Witness for C9 at a concrete input: voter `"B"` keeps their `"dislike"`
entry when voter `"A"` casts a like on the same image. -/
theorem C9_voter_isolation_witness :
    "B" ≠ resolveUser ⟨[("img", [("B", "dislike")])], [], [], [], false, true,
        some "A", none, none⟩
    ∧ alGet (getCachedRatings
        (setRating ⟨[("img", [("B", "dislike")])], [], [], [], false, true,
          some "A", none, none⟩ "img" "like").1 (jsTrim "img")) "B"
      = alGet (getCachedRatings ⟨[("img", [("B", "dislike")])], [], [], [],
          false, true, some "A", none, none⟩ (jsTrim "img")) "B" :=
  ⟨by decide,
    C9_voter_isolation ⟨[("img", [("B", "dislike")])], [], [], [], false, true,
      some "A", none, none⟩ "img" "like" "B" (by decide)⟩

/-! ## C2: toggle semantics -/

/-- C2 counterexample: the claim quantifies over *every* starting cache
state, but when the resolved voter's cached entry already equals the
requested vote, the first call retracts and the second call re-casts: after
two `setRating("img", "like")` calls by voter `"A"` starting from a cache in
which `"A"` already holds `"like"`, the voter's entry is `some "like"`, not
absent as the claim requires. -/
theorem C2_counterexample :
    alGet (getCachedRatings
        (setRating (setRating
            ⟨[("img", [("A", "like")])], [], [], [], false, true,
              some "A", none, none⟩
            "img" "like").1 "img" "like").1 (jsTrim "img")) "A"
      = some "like"
    ∧ ¬ (alGet (getCachedRatings
        (setRating (setRating
            ⟨[("img", [("A", "like")])], [], [], [], false, true,
              some "A", none, none⟩
            "img" "like").1 "img" "like").1 (jsTrim "img")) "A"
      = none) := by
  constructor
  · decide
  · decide

/-- C2 (amended): for every image id (non-blank after trimming), valid vote
value, and starting cache state *in which the resolved voter's entry for the
image is not already the requested value*, one `setRating` call sets the
voter's entry, a second call clears it, and a third call sets it again — the
voter's cell cycles with period 2 between voted and not-voted. -/
theorem C2_toggle_cycle (st : RState) (imageId rating : String)
    (hid : (jsTrim imageId == "") = false)
    (hv : VALID (jsTrim rating) = true)
    (h0 : alGet (getCachedRatings st (jsTrim imageId)) (resolveUser st)
        ≠ some (jsTrim rating)) :
    alGet (getCachedRatings (setRating st imageId rating).1 (jsTrim imageId))
        (resolveUser st) = some (jsTrim rating)
    ∧ alGet (getCachedRatings
        (setRating (setRating st imageId rating).1 imageId rating).1
        (jsTrim imageId)) (resolveUser st) = none
    ∧ alGet (getCachedRatings
        (setRating (setRating (setRating st imageId rating).1 imageId rating).1
          imageId rating).1 (jsTrim imageId)) (resolveUser st)
      = some (jsTrim rating) := by
  have hc0 : (alGet (getCachedRatings st (jsTrim imageId)) (resolveUser st)
      == some (jsTrim rating)) = false := by
    simpa [beq_eq_false_iff_ne] using h0
  have h1 := setRating_cache_valid st imageId rating hid hv
  simp only [hc0, Bool.false_eq_true, if_false] at h1
  have e1 : alGet (getCachedRatings (setRating st imageId rating).1
      (jsTrim imageId)) (resolveUser st) = some (jsTrim rating) := by
    rw [h1]; exact alGet_alSet_same _ _ _
  have h2 := setRating_cache_valid (setRating st imageId rating).1
    imageId rating hid hv
  rw [resolveUser_setRating] at h2
  have hc1 : (alGet (getCachedRatings (setRating st imageId rating).1
      (jsTrim imageId)) (resolveUser st) == some (jsTrim rating)) = true := by
    rw [e1]; simp
  simp only [hc1, if_true] at h2
  have e2 : alGet (getCachedRatings
      (setRating (setRating st imageId rating).1 imageId rating).1
      (jsTrim imageId)) (resolveUser st) = none := by
    rw [h2]; exact alGet_alDel_same _ _
  have h3 := setRating_cache_valid
    (setRating (setRating st imageId rating).1 imageId rating).1
    imageId rating hid hv
  rw [resolveUser_setRating, resolveUser_setRating] at h3
  have hc2 : (alGet (getCachedRatings
      (setRating (setRating st imageId rating).1 imageId rating).1
      (jsTrim imageId)) (resolveUser st) == some (jsTrim rating)) = false := by
    rw [e2]; simp
  simp only [hc2, Bool.false_eq_true, if_false] at h3
  refine ⟨e1, e2, ?_⟩
  rw [h3]
  exact alGet_alSet_same _ _ _

/-- Witness for the amended C2 at a concrete input: voter `"A"` starts with
no entry; one call casts `"like"`, a second clears it, a third re-casts. -/
theorem C2_toggle_cycle_witness :
    ((jsTrim "img" == "") = false ∧ VALID (jsTrim "like") = true
      ∧ alGet (getCachedRatings
          ⟨[], [], [], [], false, true, some "A", none, none⟩ (jsTrim "img"))
          (resolveUser ⟨[], [], [], [], false, true, some "A", none, none⟩)
        ≠ some (jsTrim "like"))
    ∧ (alGet (getCachedRatings
        (setRating ⟨[], [], [], [], false, true, some "A", none, none⟩
          "img" "like").1 (jsTrim "img"))
        (resolveUser ⟨[], [], [], [], false, true, some "A", none, none⟩)
        = some (jsTrim "like")
      ∧ alGet (getCachedRatings
          (setRating (setRating
              ⟨[], [], [], [], false, true, some "A", none, none⟩
              "img" "like").1 "img" "like").1 (jsTrim "img"))
          (resolveUser ⟨[], [], [], [], false, true, some "A", none, none⟩) = none
      ∧ alGet (getCachedRatings
          (setRating (setRating (setRating
              ⟨[], [], [], [], false, true, some "A", none, none⟩
              "img" "like").1 "img" "like").1 "img" "like").1 (jsTrim "img"))
          (resolveUser ⟨[], [], [], [], false, true, some "A", none, none⟩)
        = some (jsTrim "like")) :=
  ⟨⟨by decide, by decide, by decide⟩,
    C2_toggle_cycle ⟨[], [], [], [], false, true, some "A", none, none⟩
      "img" "like" (by decide) (by decide) (by decide)⟩

/-! ## C4: optimistic visibility (notification before persistence) -/

/-- Is this event a subscriber-callback invocation? -/
def isNotify : REvent → Bool
  | REvent.notify _ _ _ => true
  | _ => false

/-- Is this event the start of a persistence operation (remote write/delete,
`users` document write, or local-storage fallback write)? -/
def isPersist : REvent → Bool
  | REvent.userDocWrite _ _ => true
  | REvent.remoteSet _ _ _ _ => true
  | REvent.remoteDelete _ _ _ => true
  | REvent.localWrite => true
  | _ => false

/-- No notification event occurs after any persistence event in the trace:
for every persistence event, everything after it is a non-notification. -/
def notifiesPrecedePersists : List REvent → Bool
  | [] => true
  | e :: rest =>
    ((!isPersist e) || rest.all (fun x => !isNotify x))
      && notifiesPrecedePersists rest

theorem npp_of_no_notify (l : List REvent)
    (h : ∀ e ∈ l, isNotify e = false) :
    notifiesPrecedePersists l = true := by
  induction l with
  | nil => rfl
  | cons e rest ih =>
    have hall : rest.all (fun x => !isNotify x) = true := by
      rw [List.all_eq_true]
      intro x hx
      simp [h x (List.mem_cons_of_mem _ hx)]
    have hr := ih (fun x hx => h x (List.mem_cons_of_mem _ hx))
    simp [notifiesPrecedePersists, hall, hr]

theorem npp_append (l₁ l₂ : List REvent)
    (h1 : ∀ e ∈ l₁, isPersist e = false)
    (h2 : ∀ e ∈ l₂, isNotify e = false) :
    notifiesPrecedePersists (l₁ ++ l₂) = true := by
  induction l₁ with
  | nil => simpa using npp_of_no_notify l₂ h2
  | cons e rest ih =>
    have he : isPersist e = false := h1 e (List.mem_cons_self _ _)
    have hr := ih (fun x hx => h1 x (List.mem_cons_of_mem _ hx))
    simp [notifiesPrecedePersists, he, hr]

theorem notifyEvents_no_persist (st : RState) (id : String) :
    ∀ e ∈ notifyEvents st id, isPersist e = false := by
  intro e he
  unfold notifyEvents at he
  cases h : alGet st.watchers id with
  | none => rw [h] at he; simp at he
  | some s =>
    rw [h] at he
    obtain ⟨cb, _, rfl⟩ := List.mem_map.mp he
    rfl

theorem mem_notifyEvents (st : RState) (id : String) (cb : Nat)
    (hcb : cb ∈ (alGet st.watchers id).getD []) :
    REvent.notify id cb (getCachedRatings st id) ∈ notifyEvents st id := by
  unfold notifyEvents
  cases h : alGet st.watchers id with
  | none => rw [h] at hcb; simp at hcb
  | some s =>
    rw [h] at hcb
    simp only [Option.getD_some] at hcb
    exact List.mem_map_of_mem _ hcb

/-- C4: on every valid `setRating` call, each subscriber currently registered
for the image is notified with the new cached VoteMap, and in the trace of
side effects every subscriber notification occurs before any persistence
operation (remote write/delete, `users` document write, or local-storage
fallback write) begins. -/
theorem C4_optimistic_visibility (st : RState) (imageId rating : String)
    (hid : (jsTrim imageId == "") = false)
    (hv : VALID (jsTrim rating) = true) :
    notifiesPrecedePersists (setRating st imageId rating).2 = true
    ∧ ∀ cb ∈ (alGet st.watchers (jsTrim imageId)).getD [],
        REvent.notify (jsTrim imageId) cb
            (getCachedRatings (setRating st imageId rating).1 (jsTrim imageId))
          ∈ (setRating st imageId rating).2 := by
  have hu := resolveUser_ne_empty st
  unfold setRating setCachedRatings
  simp only [hid, hv, hu, Bool.not_false, Bool.not_true, Bool.false_eq_true,
    if_false, if_true, Bool.not_eq_true']
  by_cases h3 : st.hasDb = true <;>
    by_cases h4 : st.remoteUp = true <;>
      by_cases ht : (alGet (getCachedRatings st (jsTrim imageId))
          (resolveUser st) == some (jsTrim rating)) = true <;>
        simp only [h3, h4, ht, Bool.not_true, Bool.not_false, if_true, if_false,
          Bool.false_eq_true, Bool.true_eq_false] <;>
        refine ⟨?_, ?_⟩ <;>
        first
          | (rw [List.append_assoc]
             refine npp_append _ _ (notifyEvents_no_persist _ _) ?_
             intro e he
             simp only [List.singleton_append, List.mem_cons,
               List.mem_singleton, List.not_mem_nil, or_false] at he
             rcases he with rfl | rfl | rfl | rfl <;> rfl)
          | (intro cb hcb
             rw [List.append_assoc]
             exact List.mem_append_left _ (mem_notifyEvents _ _ cb hcb))

/-- Witness for C4 at a concrete input: one subscriber (handle `7`) is
registered for `"img"`; the trace notifies it with the new map before any
persistence event. -/
theorem C4_optimistic_visibility_witness :
    notifiesPrecedePersists
        (setRating ⟨[], [("img", [7])], [], [], true, true,
            some "A", none, none⟩ "img" "like").2 = true
    ∧ REvent.notify "img" 7
        (getCachedRatings
          (setRating ⟨[], [("img", [7])], [], [], true, true,
                some "A", none, none⟩ "img" "like").1 "img")
        ∈ (setRating ⟨[], [("img", [7])], [], [], true, true,
            some "A", none, none⟩ "img" "like").2 :=
  ⟨(C4_optimistic_visibility ⟨[], [("img", [7])], [], [], true, true,
      some "A", none, none⟩ "img" "like" (by decide) (by decide)).1,
    (C4_optimistic_visibility ⟨[], [("img", [7])], [], [], true, true,
        some "A", none, none⟩ "img" "like" (by decide) (by decide)).2
      7 (by decide)⟩

/-! ## C6: read-failure semantics, C7: fallback durability -/

/-- C6 counterexample: a `getRatings` call whose remote read fails does
*not* return an empty VoteMap when the local-storage fallback record has
votes for the image — the code falls back to local storage rather than
treating the failure as "map not found". -/
theorem C6_counterexample :
    getRatings ⟨[], [], [("img", [("a", "like")])], [], true, false,
        some "A", none, none⟩ "img" = [("a", "like")]
    ∧ ¬ (getRatings ⟨[], [], [("img", [("a", "like")])], [], true, false,
        some "A", none, none⟩ "img" = []) := by
  constructor
  · decide
  · decide

/-- C6 (amended): a `getRatings` call whose remote read fails does not throw
(the function is total); the failure is handled by falling back to the local
store, so the call returns the local backend's record for that image — which
is the empty VoteMap exactly when the local record has no entry for it. -/
theorem C6_read_failure_local_fallback (st : RState) (imageId : String)
    (hdb : st.hasDb = true) (hup : st.remoteUp = false) :
    getRatings st imageId
      = (if (jsTrim imageId == "") = true then []
         else (alGet st.localStore (jsTrim imageId)).getD []) := by
  unfold getRatings
  by_cases hid : (jsTrim imageId == "") = true <;> simp [hid, hdb, hup]

/-- Witness for the amended C6 at a concrete input: with the remote backend
down and no local record, the read returns the empty map. -/
theorem C6_read_failure_local_fallback_witness :
    getRatings ⟨[], [], [], [], true, false, some "A", none, none⟩ "img"
      = (if (jsTrim "img" == "") = true then []
         else (alGet ([] : List (String × VoteMap)) (jsTrim "img")).getD []) :=
  C6_read_failure_local_fallback
    ⟨[], [], [], [], true, false, some "A", none, none⟩ "img"
    (by decide) (by decide)

/-- With a database handle but the remote backend down, `setRating` writes
the same delta into the local-storage record (the `catch` fallback). -/
theorem setRating_localStore_remoteDown (st : RState) (imageId rating : String)
    (hid : (jsTrim imageId == "") = false) (hv : VALID (jsTrim rating) = true)
    (hdb : st.hasDb = true) (hup : st.remoteUp = false) :
    (setRating st imageId rating).1.localStore
      = offlineStoreApply st.localStore (jsTrim imageId) (resolveUser st)
          (jsTrim rating)
          (alGet (getCachedRatings st (jsTrim imageId)) (resolveUser st)
            == some (jsTrim rating)) := by
  have hu := resolveUser_ne_empty st
  unfold setRating setCachedRatings
  simp [hid, hv, hu, hdb, hup]

/-- The voter's cell in the offline record after the delta: absent on
toggle-off, the written value otherwise. -/
theorem offlineStoreApply_cell (store : List (String × VoteMap))
    (id user value : String) (tog : Bool) :
    alGet ((alGet (offlineStoreApply store id user value tog) id).getD []) user
      = (if tog then none else some value) := by
  cases tog with
  | false =>
    have e : offlineStoreApply store id user value false
        = alSet store id (alSet ((alGet store id).getD []) user value) := rfl
    rw [e, alGet_alSet_same, Option.getD_some, alGet_alSet_same]
    rfl
  | true =>
    have e : offlineStoreApply store id user value true
        = (match alGet store id with
           | none => store
           | some m => alSet store id (alDel m user)) := rfl
    rw [e]
    cases h : alGet store id with
    | none =>
      show alGet ((alGet store id).getD []) user = if true = true then none else some value
      rw [h]
      rfl
    | some m =>
      show alGet ((alGet (alSet store id (alDel m user)) id).getD []) user
          = if true = true then none else some value
      rw [alGet_alSet_same, Option.getD_some, alGet_alDel_same]
      rfl

/-- The voter's cell in the cache after a valid `setRating`: absent on
toggle-off, the written value otherwise. -/
theorem setRating_cache_cell (st : RState) (imageId rating : String)
    (hid : (jsTrim imageId == "") = false) (hv : VALID (jsTrim rating) = true) :
    alGet (getCachedRatings (setRating st imageId rating).1 (jsTrim imageId))
        (resolveUser st)
      = (if alGet (getCachedRatings st (jsTrim imageId)) (resolveUser st)
            == some (jsTrim rating)
         then none else some (jsTrim rating)) := by
  rw [setRating_cache_valid st imageId rating hid hv]
  by_cases ht : (alGet (getCachedRatings st (jsTrim imageId)) (resolveUser st)
      == some (jsTrim rating)) = true
  · simp [ht, alGet_alDel_same]
  · simp [ht, alGet_alSet_same]

/-- C7: if the remote backend write fails during a valid `setRating`, the
same delta is written to the local backend's record (the serialized
`houseRatings` structure), so the write is not lost: the voter's cell in the
local record equals the optimistic cached value, and a subsequent
`getRatings` for that image in the same (still-offline) session returns a
map whose cell for the voter also equals the optimistic cached value. -/
theorem C7_fallback_durability (st : RState) (imageId rating : String)
    (hid : (jsTrim imageId == "") = false) (hv : VALID (jsTrim rating) = true)
    (hdb : st.hasDb = true) (hup : st.remoteUp = false) :
    alGet ((alGet (setRating st imageId rating).1.localStore
          (jsTrim imageId)).getD []) (resolveUser st)
      = alGet (getCachedRatings (setRating st imageId rating).1
          (jsTrim imageId)) (resolveUser st)
    ∧ alGet (getRatings (setRating st imageId rating).1 imageId) (resolveUser st)
      = alGet (getCachedRatings (setRating st imageId rating).1
          (jsTrim imageId)) (resolveUser st) := by
  have hloc := setRating_localStore_remoteDown st imageId rating hid hv hdb hup
  have hcell := offlineStoreApply_cell st.localStore (jsTrim imageId)
    (resolveUser st) (jsTrim rating)
    (alGet (getCachedRatings st (jsTrim imageId)) (resolveUser st)
      == some (jsTrim rating))
  have hcache := setRating_cache_cell st imageId rating hid hv
  have hframe := setRating_preserves_frame st imageId rating
  have hpart1 : alGet ((alGet (setRating st imageId rating).1.localStore
        (jsTrim imageId)).getD []) (resolveUser st)
      = alGet (getCachedRatings (setRating st imageId rating).1
          (jsTrim imageId)) (resolveUser st) := by
    rw [hloc, hcell, hcache]
  refine ⟨hpart1, ?_⟩
  unfold getRatings
  rw [hframe.2.1, hframe.2.2.1]
  simp only [hid, hdb, hup, Bool.not_true, Bool.false_eq_true, if_false,
    Bool.not_false, if_true]
  exact hpart1

/-- Witness for C7 at a concrete input: remote down, voter `"A"` casts
`"like"` on `"img"`; the local record and a subsequent read both hold the
optimistic value. -/
theorem C7_fallback_durability_witness :
    alGet ((alGet (setRating ⟨[], [], [], [], true, false,
          some "A", none, none⟩ "img" "like").1.localStore
          (jsTrim "img")).getD []) (resolveUser ⟨[], [], [], [], true, false,
          some "A", none, none⟩)
      = alGet (getCachedRatings (setRating ⟨[], [], [], [], true, false,
          some "A", none, none⟩ "img" "like").1 (jsTrim "img"))
          (resolveUser ⟨[], [], [], [], true, false, some "A", none, none⟩)
    ∧ alGet (getRatings (setRating ⟨[], [], [], [], true, false,
          some "A", none, none⟩ "img" "like").1 "img")
          (resolveUser ⟨[], [], [], [], true, false, some "A", none, none⟩)
      = alGet (getCachedRatings (setRating ⟨[], [], [], [], true, false,
          some "A", none, none⟩ "img" "like").1 (jsTrim "img"))
          (resolveUser ⟨[], [], [], [], true, false, some "A", none, none⟩) :=
  C7_fallback_durability ⟨[], [], [], [], true, false, some "A", none, none⟩
    "img" "like" (by decide) (by decide) (by decide) (by decide)

/-! ## C8: unsubscribe idempotence and leak-freedom -/

theorem alSet_alSet_same {α : Type} (m : List (String × α)) (k : String) (v v' : α) :
    alSet (alSet m k v) k v' = alSet m k v' := by
  unfold alSet
  rw [List.filter_append]
  have h1 : ([(k, v)].filter (fun p => !(p.1 == k))) = [] := by simp
  rw [h1, List.append_nil, List.filter_filter]
  congr 1
  apply List.filter_congr
  intro a _
  exact Bool.and_self _

theorem unsubscribe_idem (st : RState) (id : String) (cb : Nat) :
    unsubscribeFromRatings (unsubscribeFromRatings st id cb) id cb
      = unsubscribeFromRatings st id cb := by
  cases hw : alGet st.watchers id with
  | none =>
    have e1 : unsubscribeFromRatings st id cb = st := by
      unfold unsubscribeFromRatings
      rw [hw]
    rw [e1]
    unfold unsubscribeFromRatings
    rw [hw]
  | some s =>
    by_cases hz : ((s.filter (fun x => !(x == cb))).length == 0) = true
    · have e1 : unsubscribeFromRatings st id cb
          = { st with watchers := alDel st.watchers id } := by
        unfold unsubscribeFromRatings
        rw [hw]
        dsimp only
        rw [if_pos hz]
      rw [e1]
      unfold unsubscribeFromRatings
      rw [show alGet ({ st with watchers := alDel st.watchers id } : RState).watchers id
          = none from alGet_alDel_same _ _]
    · have e1 : unsubscribeFromRatings st id cb
          = { st with
              watchers := alSet st.watchers id (s.filter (fun x => !(x == cb))) } := by
        unfold unsubscribeFromRatings
        rw [hw]
        dsimp only
        rw [if_neg hz]
      rw [e1]
      unfold unsubscribeFromRatings
      rw [show alGet ({ st with
            watchers := alSet st.watchers id (s.filter (fun x => !(x == cb))) } :
            RState).watchers id
          = some (s.filter (fun x => !(x == cb))) from alGet_alSet_same _ _ _]
      dsimp only
      have hff : (s.filter (fun x => !(x == cb))).filter (fun x => !(x == cb))
          = s.filter (fun x => !(x == cb)) := by
        rw [List.filter_filter]
        apply List.filter_congr
        intro a _
        exact Bool.and_self _
      rw [hff, if_neg hz]
      congr 1
      exact alSet_alSet_same _ _ _ _

theorem unsubscribe_removes (st : RState) (id : String) (cb : Nat) :
    cb ∉ (alGet (unsubscribeFromRatings st id cb).watchers id).getD [] := by
  cases hw : alGet st.watchers id with
  | none =>
    have e1 : unsubscribeFromRatings st id cb = st := by
      unfold unsubscribeFromRatings
      rw [hw]
    rw [e1, hw]
    simp
  | some s =>
    by_cases hz : ((s.filter (fun x => !(x == cb))).length == 0) = true
    · have e1 : unsubscribeFromRatings st id cb
          = { st with watchers := alDel st.watchers id } := by
        unfold unsubscribeFromRatings
        rw [hw]
        dsimp only
        rw [if_pos hz]
      rw [e1]
      rw [show alGet ({ st with watchers := alDel st.watchers id } : RState).watchers id
          = none from alGet_alDel_same _ _]
      simp
    · have e1 : unsubscribeFromRatings st id cb
          = { st with
              watchers := alSet st.watchers id (s.filter (fun x => !(x == cb))) } := by
        unfold unsubscribeFromRatings
        rw [hw]
        dsimp only
        rw [if_neg hz]
      rw [e1]
      rw [show alGet ({ st with
            watchers := alSet st.watchers id (s.filter (fun x => !(x == cb))) } :
            RState).watchers id
          = some (s.filter (fun x => !(x == cb))) from alGet_alSet_same _ _ _]
      simp [List.mem_filter]

theorem notify_mem_notifyEvents (st : RState) (id i : String) (cb : Nat) (m : VoteMap)
    (h : REvent.notify i cb m ∈ notifyEvents st id) :
    i = id ∧ cb ∈ (alGet st.watchers id).getD [] := by
  unfold notifyEvents at h
  cases hw : alGet st.watchers id with
  | none =>
    rw [hw] at h
    simp at h
  | some s =>
    rw [hw] at h
    obtain ⟨x, hx, heq⟩ := List.mem_map.mp h
    simp only [REvent.notify.injEq] at heq
    obtain ⟨h1, h2, _⟩ := heq
    refine ⟨h1.symm, ?_⟩
    simpa [h2] using hx

/-- Every subscriber-notification event emitted by `setRating` targets the
trimmed image id of the call and a callback registered for it at call time. -/
theorem setRating_notify_mem (st : RState) (imageId rating : String)
    (i : String) (cb : Nat) (m : VoteMap)
    (hmem : REvent.notify i cb m ∈ (setRating st imageId rating).2) :
    i = jsTrim imageId ∧ cb ∈ (alGet st.watchers (jsTrim imageId)).getD [] := by
  by_cases hid : (jsTrim imageId == "") = true
  · unfold setRating at hmem
    simp [hid] at hmem
  · by_cases hv : VALID (jsTrim rating) = true
    · have hu := resolveUser_ne_empty st
      unfold setRating setCachedRatings at hmem
      simp only [hid, hv, hu, Bool.not_true, Bool.not_false, Bool.false_eq_true,
        if_false, if_true, Bool.not_eq_true'] at hmem
      by_cases h3 : st.hasDb = true <;>
        by_cases h4 : st.remoteUp = true <;>
          by_cases ht : (alGet (getCachedRatings st (jsTrim imageId))
              (resolveUser st) == some (jsTrim rating)) = true <;>
            simp only [h3, h4, ht, Bool.not_true, Bool.not_false, if_true,
              if_false, Bool.false_eq_true, Bool.true_eq_false] at hmem <;>
            (rw [List.append_assoc] at hmem
             rcases List.mem_append.mp hmem with h5 | h5
             · obtain ⟨ha, hb⟩ := notify_mem_notifyEvents _ _ _ _ _ h5
               exact ⟨ha, hb⟩
             · simp at h5)
    · rw [setRating_invalid_noop st imageId rating (by simpa using hv)] at hmem
      simp at hmem

/-- C8: the unsubscribe closure returned by `subscribeToRatings` is
idempotent and leak-free: running it a second time (also when the image's
watcher set has already emptied) changes nothing and raises no error; after
it runs, a subsequent `setRating` on that image emits no notification to the
removed callback; and if the callback was the image's only subscriber, the
watcher registry holds no entry for that image afterwards. -/
theorem C8_unsubscribe_idempotent_leakfree (st : RState)
    (imageId rating : String) (cb : Nat) :
    unsubscribeFromRatings (unsubscribeFromRatings st (jsTrim imageId) cb)
        (jsTrim imageId) cb
      = unsubscribeFromRatings st (jsTrim imageId) cb
    ∧ (∀ (i : String) (m : VoteMap),
        REvent.notify i cb m ∉
          (setRating (unsubscribeFromRatings st (jsTrim imageId) cb)
            imageId rating).2)
    ∧ (alGet st.watchers (jsTrim imageId) = some [cb] →
        alGet (unsubscribeFromRatings st (jsTrim imageId) cb).watchers
          (jsTrim imageId) = none) := by
  refine ⟨unsubscribe_idem st (jsTrim imageId) cb, ?_, ?_⟩
  · intro i m hmem
    have h := setRating_notify_mem
      (unsubscribeFromRatings st (jsTrim imageId) cb) imageId rating i cb m hmem
    exact unsubscribe_removes st (jsTrim imageId) cb h.2
  · intro hone
    unfold unsubscribeFromRatings
    rw [hone]
    dsimp only
    have hz : (([cb].filter (fun x => !(x == cb))).length == 0) = true := by simp
    rw [if_pos hz]
    exact alGet_alDel_same _ _

/-- Witness for C8 at a concrete input: handle `7` is the only subscriber of
`"img"`; unsubscribing is idempotent, a later `setRating` emits no
notification to it, and the registry entry for `"img"` is gone. -/
theorem C8_unsubscribe_witness :
    unsubscribeFromRatings (unsubscribeFromRatings
        ⟨[], [("img", [7])], [], [], false, true, some "A", none, none⟩
        (jsTrim "img") 7) (jsTrim "img") 7
      = unsubscribeFromRatings
          ⟨[], [("img", [7])], [], [], false, true, some "A", none, none⟩
          (jsTrim "img") 7
    ∧ REvent.notify "img" 7 [("A", "like")] ∉
        (setRating (unsubscribeFromRatings
            ⟨[], [("img", [7])], [], [], false, true, some "A", none, none⟩
            (jsTrim "img") 7) "img" "like").2
    ∧ alGet (unsubscribeFromRatings
          ⟨[], [("img", [7])], [], [], false, true, some "A", none, none⟩
          (jsTrim "img") 7).watchers (jsTrim "img") = none :=
  ⟨(C8_unsubscribe_idempotent_leakfree
      ⟨[], [("img", [7])], [], [], false, true, some "A", none, none⟩
      "img" "like" 7).1,
    (C8_unsubscribe_idempotent_leakfree
      ⟨[], [("img", [7])], [], [], false, true, some "A", none, none⟩
      "img" "like" 7).2.1 "img" [("A", "like")],
    (C8_unsubscribe_idempotent_leakfree
      ⟨[], [("img", [7])], [], [], false, true, some "A", none, none⟩
      "img" "like" 7).2.2 (by decide)⟩

/-! ## C10: remote snapshots only contribute valid vote values -/

theorem snapshot_fold_valid (docs : RawDocs) (acc : VoteMap)
    (hacc : ∀ p ∈ acc, VALID p.2 = true) :
    ∀ p ∈ docs.foldl
        (fun ratings d =>
          let value := normalizeText d.2
          if VALID value then alSet ratings d.1 value else ratings)
        acc,
      VALID p.2 = true := by
  induction docs generalizing acc with
  | nil => simpa using hacc
  | cons d rest ih =>
    simp only [List.foldl_cons]
    apply ih
    by_cases hV : VALID (normalizeText d.2) = true
    · intro p hp
      rw [if_pos hV] at hp
      unfold alSet at hp
      rcases List.mem_append.mp hp with h | h
      · exact hacc p (List.mem_of_mem_filter h)
      · have hpd : p = (d.1, normalizeText d.2) := by simpa using h
        rw [hpd]
        exact hV
    · intro p hp
      rw [if_neg hV] at hp
      exact hacc p hp

theorem snapshot_fold_drops (docs : RawDocs) (acc : VoteMap) (u : String)
    (hacc : alGet acc u = none)
    (h : ∀ v, (u, v) ∈ docs → VALID (normalizeText v) = false) :
    alGet (docs.foldl
        (fun ratings d =>
          let value := normalizeText d.2
          if VALID value then alSet ratings d.1 value else ratings)
        acc) u = none := by
  induction docs generalizing acc with
  | nil => simpa using hacc
  | cons d rest ih =>
    simp only [List.foldl_cons]
    apply ih
    · by_cases hd : d.1 = u
      · subst hd
        have hdval : VALID (normalizeText d.2) = false := by
          apply h d.2
          exact List.mem_cons_self _ _
        rw [if_neg (by simp [hdval])]
        exact hacc
      · by_cases hV : VALID (normalizeText d.2) = true
        · rw [if_pos hV]
          rw [alGet_alSet_other _ _ _ _ (fun hh => hd hh.symm)]
          exact hacc
        · rw [if_neg hV]
          exact hacc
    · intro v hv
      exact h v (List.mem_cons_of_mem _ hv)

theorem snapshotToRatings_valid (docs : RawDocs) :
    ∀ p ∈ snapshotToRatings docs, VALID p.2 = true := by
  unfold snapshotToRatings
  exact snapshot_fold_valid docs [] (by simp)

theorem snapshotToRatings_drops (docs : RawDocs) (u : String)
    (h : ∀ v, (u, v) ∈ docs → VALID (normalizeText v) = false) :
    alGet (snapshotToRatings docs) u = none := by
  unfold snapshotToRatings
  exact snapshot_fold_drops docs [] u rfl h

/-- C10: every VoteMap built from a remote snapshot — by a successful
`getRatings` fetch or by the `mountCard` live-snapshot bridge — contains
only values in `{like, unsure, dislike}`; a remote cell whose stored value,
after trimming, falls outside that set is dropped from the map (its voter
gets no entry unless some other cell of that voter is valid). -/
theorem C10_remote_values_valid (st : RState) (imageId : String)
    (docs : RawDocs) (u : String) :
    (∀ p ∈ snapshotToRatings docs, VALID p.2 = true)
    ∧ ((∀ v, (u, v) ∈ docs → VALID (normalizeText v) = false) →
        alGet (snapshotToRatings docs) u = none)
    ∧ (∀ p ∈ getCachedRatings (mountCardOnSnapshot st imageId docs).1
          (jsTrim imageId), VALID p.2 = true)
    ∧ (st.hasDb = true → st.remoteUp = true →
        ∀ p ∈ getRatings st imageId, VALID p.2 = true) := by
  refine ⟨snapshotToRatings_valid docs, snapshotToRatings_drops docs u, ?_, ?_⟩
  · intro p hp
    apply snapshotToRatings_valid docs
    unfold mountCardOnSnapshot setCachedRatings getCachedRatings at hp
    rw [show alGet (alSet st.cache (jsTrim imageId) (snapshotToRatings docs))
        (jsTrim imageId) = some (snapshotToRatings docs)
        from alGet_alSet_same _ _ _] at hp
    simpa using hp
  · intro hdb hup p hp
    unfold getRatings at hp
    by_cases hid : (jsTrim imageId == "") = true
    · simp [hid] at hp
    · simp only [hid, hdb, hup, Bool.not_true, Bool.false_eq_true, if_false,
        Bool.not_false, if_true] at hp
      exact snapshotToRatings_valid _ p hp

/-- Witness for C10 at concrete inputs: a snapshot holding one valid cell
(`" like "`, trimmed) and one invalid cell (`"love"`) yields a map without
the invalid voter, and a successful remote fetch of it returns only valid
values. -/
theorem C10_remote_values_valid_witness :
    alGet (snapshotToRatings [("a", some " like "), ("b", some "love")]) "b"
      = none
    ∧ VALID (("a", "like") : String × String).2 = true :=
  ⟨(C10_remote_values_valid
      ⟨[], [], [], [("img", [("a", some " like "), ("b", some "love")])],
        true, true, some "A", none, none⟩
      "img" [("a", some " like "), ("b", some "love")] "b").2.1
      (by
        intro v hv
        simp only [List.mem_cons, List.not_mem_nil, or_false,
          Prod.mk.injEq] at hv
        rcases hv with ⟨h1, h2⟩ | ⟨h1, h2⟩
        · exact absurd h1 (by decide)
        · subst h2
          decide),
    (C10_remote_values_valid
      ⟨[], [], [], [("img", [("a", some " like "), ("b", some "love")])],
        true, true, some "A", none, none⟩
      "img" [("a", some " like "), ("b", some "love")] "b").2.2.2
      (by decide) (by decide) ("a", "like") (by decide)⟩

/-! ## C3: score weighting and score-based tiers (swatch view module) -/

/-- A swatch record as consumed by the swatch view: only the pre-computed
`score` and `likes` fields matter here (`s.score || 0` reads a missing
field as 0). -/
structure Swatch where
  id : String
  score : Option Nat
  likes : Option Nat
  deriving Repr, DecidableEq

/-- `s.score || 0`. -/
def scoreOrZero (s : Swatch) : Nat := s.score.getD 0

/-- `s.likes || 0`. -/
def likesOrZero (s : Swatch) : Nat := s.likes.getD 0

/-- The sort comparator of `applyLikesFilter`
(`(b.score||0) - (a.score||0) || (b.likes||0) - (a.likes||0)`): `a` may come
before `b` when `a` has the higher score, or equal scores and
`a.likes ≥ b.likes`. -/
def ratingSortLe (a b : Swatch) : Bool :=
  if scoreOrZero a = scoreOrZero b then likesOrZero b ≤ likesOrZero a
  else scoreOrZero b < scoreOrZero a

/-- `applyLikesFilter(swatches, filter)` from the swatch view module:
select by the pre-computed score field, then sort by score (highest first)
breaking ties by likes. -/
def applyLikesFilter (swatches : List Swatch) (f : String) : List Swatch :=
  let result :=
    if f == "favorites" then swatches.filter (fun s => 5 ≤ scoreOrZero s)
    else if f == "strong" then swatches.filter (fun s => 4 ≤ scoreOrZero s)
    else if f == "promising" then swatches.filter (fun s => 3 ≤ scoreOrZero s)
    else if f == "controversial" then swatches.filter (fun s => scoreOrZero s ≤ 2)
    else swatches
  result.mergeSort ratingSortLe

/-- One tier header of the "all" view in `renderSwatches`: minimum score and
optional maximum score. -/
structure Tier where
  tmin : Nat
  tmax : Option Nat
  label : String
  deriving Repr, DecidableEq

/-- The tier list of `renderSwatches`: Favorites (score ≥ 5), Strong
(score 4), Promising (score 3), Controversial (score 1-2). -/
def renderTiers : List Tier :=
  [⟨5, none, "Favorites"⟩, ⟨4, some 4, "Strong"⟩,
   ⟨3, some 3, "Promising"⟩, ⟨1, some 2, "Controversial"⟩]

/-- Tier membership test of `renderSwatches`:
`if (tier.max !== undefined) return score >= tier.min && score <= tier.max;
return score >= tier.min`. -/
def tierMatches (t : Tier) (s : Swatch) : Bool :=
  match t.tmax with
  | some mx => decide (t.tmin ≤ scoreOrZero s) && decide (scoreOrZero s ≤ mx)
  | none => decide (t.tmin ≤ scoreOrZero s)

/-- `Object.values(ratings).filter(v => v === "like").length`. -/
def getLikeCount (m : VoteMap) : Nat :=
  ((m.map Prod.snd).filter (fun v => v == "like")).length

/-- Like `getLikeCount`, counting `"unsure"` votes. -/
def getUnsureCount (m : VoteMap) : Nat :=
  ((m.map Prod.snd).filter (fun v => v == "unsure")).length

/-- Modelled from the spec: the script that pre-computes the swatch `score`
field is not among the repository sources; the specification (and the
weighting comments in the swatch view: like = 2, unsure = 1, dislike = 0)
give `score(voteMap) = 2 × likeCount + 1 × unsureCount`. -/
def score (m : VoteMap) : Nat :=
  2 * getLikeCount m + 1 * getUnsureCount m

/-- C3: the score of a vote map is `2 × likeCount + 1 × unsureCount` (so the
spec's example map scores 5), and exactly this pre-computed weighting buckets
swatches into the ranked tiers: the "favorites" selection is precisely the
swatches with score ≥ 5 (the top tier), and a swatch with score 0 falls into
none of the ranked tiers of the "all" view (it stays unrated). -/
theorem C3_score_weighting_tiers (swatches : List Swatch) (s : Swatch) :
    score [("a", "like"), ("b", "like"), ("c", "unsure")] = 5
    ∧ (s ∈ applyLikesFilter swatches "favorites"
        ↔ (s ∈ swatches ∧ 5 ≤ scoreOrZero s))
    ∧ (scoreOrZero s = 0 → ∀ t ∈ renderTiers, tierMatches t s = false) := by
  refine ⟨by decide, ?_, ?_⟩
  · unfold applyLikesFilter
    simp [List.mem_mergeSort, List.mem_filter]
  · intro h0 t ht
    simp only [renderTiers, List.mem_cons, List.not_mem_nil, or_false] at ht
    rcases ht with rfl | rfl | rfl | rfl <;> simp [tierMatches, h0]

/-- Witness for C3 at a concrete input: a swatch with score 6 is in the
"favorites" selection, and a swatch with score 0 matches no ranked tier. -/
theorem C3_score_weighting_tiers_witness :
    (⟨"s1", some 6, some 3⟩ : Swatch)
        ∈ applyLikesFilter [⟨"s0", some 0, none⟩, ⟨"s1", some 6, some 3⟩]
            "favorites"
    ∧ tierMatches ⟨5, none, "Favorites"⟩ (⟨"s0", some 0, none⟩ : Swatch)
        = false :=
  ⟨(C3_score_weighting_tiers
      [⟨"s0", some 0, none⟩, ⟨"s1", some 6, some 3⟩]
      ⟨"s1", some 6, some 3⟩).2.1.mpr (by decide),
    (C3_score_weighting_tiers
      [⟨"s0", some 0, none⟩, ⟨"s1", some 6, some 3⟩]
      ⟨"s0", some 0, none⟩).2.2 (by decide)
      ⟨5, none, "Favorites"⟩ (by decide)⟩

end HouseGallery
